import Mathlib

/-!
Verification development for the go-plsql-statement-splitter repository.

The core under verification is the statement-boundary resolver
(internal/parser/parser.go): the parse-tree listener with its PL/SQL block
depth counter, the statement deduplicator, the keyword statement-type
classifier, the syntax-error-capturing listener with its diagnostic context
builder, and the public splitter front-end (pkg/splitter/models.go,
pkg/statement/type.go).

The ANTLR grammar, lexer and tree walker are external collaborators: they
are modelled as an abstract stream of enter/exit rule events carrying the
rule's start/stop tokens and the token-stream text of the rule's span, and
as the parse outcome (statement list, error list) handed to the splitter
front-end.  Everything the repository's own code does with those inputs is
embedded below, definition by definition, following the Go source.

Go machine integers are modelled as Int (no overflow is relevant: all
values stay tiny), Go strings as String, Go slices as List.  The single
deliberate deterministic refinement: the Go code collects deduplicated
statements from a map whose iteration order is unspecified; here the map is
an insertion-ordered association list, and the final sort.Slice is modelled
by insertion sort over the same comparison.
-/

namespace PlsqlSplit

/-! ### Small string helpers (strings.Repeat, strings.Contains, fmt padding) -/

/-- A run of n space characters, as built by strings.Repeat(" ", n). -/
def spaces (n : Nat) : String :=
  String.mk (List.replicate n ' ')

/-- Uppercasing, as in strings.ToUpper (character-wise). -/
def toUpperStr (s : String) : String :=
  String.mk (s.data.map Char.toUpper)

/-- Whitespace trimming at both ends, as in strings.TrimSpace. -/
def trimStr (s : String) : String :=
  String.mk (((s.data.dropWhile Char.isWhitespace).reverse.dropWhile Char.isWhitespace).reverse)

/-- Prefix test, as in strings.HasPrefix(s, pat). -/
def strStarts (s pat : String) : Bool :=
  pat.data.isPrefixOf s.data

/-- Substring containment test, as in strings.Contains(s, pat). -/
def strContains (s pat : String) : Bool :=
  s.data.tails.any fun t => pat.data.isPrefixOf t

/-- Splitting on the newline character, as in strings.Split(s, newline):
the empty string yields one empty field, a trailing newline a trailing
empty field. -/
def splitLinesAux : List Char → List Char → List String
  | [], acc => [String.mk acc.reverse]
  | c :: rest, acc =>
      if c = '\n' then String.mk acc.reverse :: splitLinesAux rest []
      else splitLinesAux rest (c :: acc)

/-- The lines of a source text, as strings.Split(s, newline) produces them. -/
def splitLines (s : String) : List String :=
  splitLinesAux s.data []

/-- Joining with a separator, as in strings.Join. -/
def joinWith (sep : String) : List String → String
  | [] => ""
  | [x] => x
  | x :: y :: xs => x ++ sep ++ joinWith sep (y :: xs)

/-- Right-aligned line number with separator, as in fmt.Sprintf with a star
width: the number is padded on the left with spaces to the given width and
followed by a space and a bar. -/
def lineNumberFor (padding : Nat) (i : Int) : String :=
  let s := toString i
  spaces (padding - s.length) ++ s ++ " |"

/-! ### Statement type classifier (getDeterminedStatementType, parser.go) -/

/-- Embedding of getDeterminedStatementType: normalize (trim, uppercase)
then test prefixes, and for CREATE/ALTER/DROP test substring containment of
secondary keywords in the exact order of the Go if/else chain. -/
def getDeterminedStatementType (text0 : String) : String :=
  let text := toUpperStr (trimStr text0)
  if strStarts text "SELECT" then "SELECT"
  else if strStarts text "INSERT" then "INSERT"
  else if strStarts text "UPDATE" then "UPDATE"
  else if strStarts text "DELETE" then "DELETE"
  else if strStarts text "MERGE" then "MERGE"
  else if strStarts text "CREATE" then
    if strContains text "PACKAGE BODY" then "CREATE_PACKAGE_BODY"
    else if strContains text "PACKAGE" then "CREATE_PACKAGE"
    else if strContains text "PROCEDURE" then "CREATE_PROCEDURE"
    else if strContains text "FUNCTION" then "CREATE_FUNCTION"
    else if strContains text "TRIGGER" then "CREATE_TRIGGER"
    else if strContains text "TABLE" then "CREATE_TABLE"
    else if strContains text "VIEW" then "CREATE_VIEW"
    else if strContains text "INDEX" then "CREATE_INDEX"
    else if strContains text "SEQUENCE" then "CREATE_SEQUENCE"
    else if strContains text "TYPE BODY" then "CREATE_TYPE_BODY"
    else if strContains text "TYPE" then "CREATE_TYPE"
    else if strContains text "MATERIALIZED VIEW" then "CREATE_MATERIALIZED_VIEW"
    else if strContains text "SYNONYM" then "CREATE_SYNONYM"
    else if strContains text "DATABASE LINK" then "CREATE_DATABASE_LINK"
    else "CREATE"
  else if strStarts text "ALTER" then
    if strContains text "TABLE" then "ALTER_TABLE"
    else if strContains text "INDEX" then "ALTER_INDEX"
    else if strContains text "PROCEDURE" then "ALTER_PROCEDURE"
    else if strContains text "FUNCTION" then "ALTER_FUNCTION"
    else if strContains text "PACKAGE" then "ALTER_PACKAGE"
    else if strContains text "TRIGGER" then "ALTER_TRIGGER"
    else if strContains text "SEQUENCE" then "ALTER_SEQUENCE"
    else "ALTER"
  else if strStarts text "DROP" then
    if strContains text "TABLE" then "DROP_TABLE"
    else if strContains text "INDEX" then "DROP_INDEX"
    else if strContains text "PROCEDURE" then "DROP_PROCEDURE"
    else if strContains text "FUNCTION" then "DROP_FUNCTION"
    else if strContains text "PACKAGE" then "DROP_PACKAGE"
    else if strContains text "TRIGGER" then "DROP_TRIGGER"
    else if strContains text "SEQUENCE" then "DROP_SEQUENCE"
    else if strContains text "VIEW" then "DROP_VIEW"
    else "DROP"
  else if strStarts text "TRUNCATE" then "TRUNCATE"
  else if strStarts text "GRANT" then "GRANT"
  else if strStarts text "REVOKE" then "REVOKE"
  else if strStarts text "COMMIT" then "COMMIT"
  else if strStarts text "ROLLBACK" then "ROLLBACK"
  else if strStarts text "SAVEPOINT" then "SAVEPOINT"
  else if strStarts text "BEGIN" || strStarts text "DECLARE" then "PLSQL_BLOCK"
  else if text = "/" then "SLASH"
  else if strStarts text "EXPLAIN PLAN" then "EXPLAIN_PLAN"
  else if strStarts text "COMMENT ON" then "COMMENT"
  else if strStarts text "SET TRANSACTION" then "SET_TRANSACTION"
  else if strStarts text "LOCK TABLE" then "LOCK_TABLE"
  else if strStarts text "EXECUTE" || strStarts text "EXEC" then "EXECUTE"
  else if strStarts text "SHOW" then "SHOW"
  else if strStarts text "DESC" || strStarts text "DESCRIBE" then "DESCRIBE"
  else "UNKNOWN"

/-- Transaction statement type refinement, inlined in
EnterTransaction_control_statements in the Go source: trim, uppercase, then
match the leading keyword, defaulting to TRANSACTION. -/
def transactionControlType (content : String) : String :=
  let upperContent := toUpperStr (trimStr content)
  if strStarts upperContent "COMMIT" then "COMMIT"
  else if strStarts upperContent "ROLLBACK" then "ROLLBACK"
  else if strStarts upperContent "SAVEPOINT" then "SAVEPOINT"
  else "TRANSACTION"

/-! ### Data model: tokens, parse-tree events, statements -/

/-- An ANTLR token as the listener consumes it: 1-based line, 0-based
column, literal text. -/
structure Token where
  line : Int
  column : Int
  text : String
deriving DecidableEq

/-- What a rule-context exposes to an enter handler: the optional start and
stop tokens (nil for malformed/recovered nodes) and the token-stream text
of the span between them (tokenStream.GetTextFromTokens start stop). -/
structure NodeInfo where
  start : Option Token
  stop : Option Token
  content : String
deriving DecidableEq

/-- Internal statement record (statementModel in parser.go).  The Go field
named Type is called type here because Type is reserved in Lean. -/
structure statementModel where
  Content : String
  StartLine : Int
  EndLine : Int
  StartColumn : Int
  EndColumn : Int
  type : String
deriving DecidableEq

/-- The grammar rules the StatementListener overrides handlers for; all
other rules hit the base listener's no-op and never change the state. -/
inductive RuleKind where
  | unitStatement
  | sqlStatement
  | transactionControl
  | createProcedureBody
  | createFunctionBody
  | createPackage
  | createPackageBody
  | createTrigger
  | createType
  | createTypeBody
  | anonymousBlock
  | block
  | declareBlock
  | seqOfDeclareSpecs
deriving DecidableEq

/-- One callback of the parse-tree walk: entering a rule (with its token
span data) or exiting it. -/
inductive Event where
  | enter (kind : RuleKind) (info : NodeInfo)
  | exit (kind : RuleKind)
deriving DecidableEq

/-- Listener state (StatementListener in parser.go): collected statements,
the current block type marker, and the PL/SQL block depth counter. -/
structure StatementListener where
  Statements : List statementModel
  currentType : String
  plsqlBlockDepth : Int
deriving DecidableEq

/-- NewStatementListener: empty statement list, empty current type, depth
zero. -/
def NewStatementListener : StatementListener :=
  { Statements := [], currentType := "", plsqlBlockDepth := 0 }

/-- The statement record each emitting handler builds: content, start
token's line and column, stop token's line, and stop column plus the length
of the stop token's text (end column is one past the last character). -/
def mkStatementModel (content : String) (start stop : Token) (t : String) : statementModel :=
  { Content := content
    StartLine := start.line
    EndLine := stop.line
    StartColumn := start.column
    EndColumn := stop.column + (stop.text.length : Int)
    type := t }

/-- EnterUnit_statement: skip inside a PL/SQL block; skip when either token
is unresolvable; otherwise append one statement typed by the classifier. -/
def StatementListener.EnterUnit_statement (l : StatementListener) (info : NodeInfo) :
    StatementListener :=
  if l.plsqlBlockDepth > 0 then l
  else
    match info.start, info.stop with
    | some start, some stop =>
        { l with Statements := l.Statements ++
            [mkStatementModel info.content start stop (getDeterminedStatementType info.content)] }
    | _, _ => l

/-- EnterSql_statement: same gating and emission as EnterUnit_statement. -/
def StatementListener.EnterSql_statement (l : StatementListener) (info : NodeInfo) :
    StatementListener :=
  if l.plsqlBlockDepth > 0 then l
  else
    match info.start, info.stop with
    | some start, some stop =>
        { l with Statements := l.Statements ++
            [mkStatementModel info.content start stop (getDeterminedStatementType info.content)] }
    | _, _ => l

/-- EnterTransaction_control_statements: same gating, with the transaction
keyword refinement for the type. -/
def StatementListener.EnterTransaction_control_statements (l : StatementListener)
    (info : NodeInfo) : StatementListener :=
  if l.plsqlBlockDepth > 0 then l
  else
    match info.start, info.stop with
    | some start, some stop =>
        { l with Statements := l.Statements ++
            [mkStatementModel info.content start stop (transactionControlType info.content)] }
    | _, _ => l

/-- EnterCreate_procedure_body: record the block type marker and increment
the depth counter; no statement is appended here. -/
def StatementListener.EnterCreate_procedure_body (l : StatementListener) : StatementListener :=
  { l with currentType := "CREATE_PROCEDURE", plsqlBlockDepth := l.plsqlBlockDepth + 1 }

/-- ExitCreate_procedure_body: decrement the depth counter (no clamp in the
Go source). -/
def StatementListener.ExitCreate_procedure_body (l : StatementListener) : StatementListener :=
  { l with plsqlBlockDepth := l.plsqlBlockDepth - 1 }

/-- EnterCreate_function_body, as EnterCreate_procedure_body. -/
def StatementListener.EnterCreate_function_body (l : StatementListener) : StatementListener :=
  { l with currentType := "CREATE_FUNCTION", plsqlBlockDepth := l.plsqlBlockDepth + 1 }

/-- ExitCreate_function_body: decrement, no clamp. -/
def StatementListener.ExitCreate_function_body (l : StatementListener) : StatementListener :=
  { l with plsqlBlockDepth := l.plsqlBlockDepth - 1 }

/-- EnterCreate_package. -/
def StatementListener.EnterCreate_package (l : StatementListener) : StatementListener :=
  { l with currentType := "CREATE_PACKAGE", plsqlBlockDepth := l.plsqlBlockDepth + 1 }

/-- ExitCreate_package: decrement, no clamp. -/
def StatementListener.ExitCreate_package (l : StatementListener) : StatementListener :=
  { l with plsqlBlockDepth := l.plsqlBlockDepth - 1 }

/-- EnterCreate_package_body. -/
def StatementListener.EnterCreate_package_body (l : StatementListener) : StatementListener :=
  { l with currentType := "CREATE_PACKAGE_BODY", plsqlBlockDepth := l.plsqlBlockDepth + 1 }

/-- ExitCreate_package_body: decrement, no clamp. -/
def StatementListener.ExitCreate_package_body (l : StatementListener) : StatementListener :=
  { l with plsqlBlockDepth := l.plsqlBlockDepth - 1 }

/-- EnterCreate_trigger. -/
def StatementListener.EnterCreate_trigger (l : StatementListener) : StatementListener :=
  { l with currentType := "CREATE_TRIGGER", plsqlBlockDepth := l.plsqlBlockDepth + 1 }

/-- ExitCreate_trigger: decrement, no clamp. -/
def StatementListener.ExitCreate_trigger (l : StatementListener) : StatementListener :=
  { l with plsqlBlockDepth := l.plsqlBlockDepth - 1 }

/-- EnterCreate_type. -/
def StatementListener.EnterCreate_type (l : StatementListener) : StatementListener :=
  { l with currentType := "CREATE_TYPE", plsqlBlockDepth := l.plsqlBlockDepth + 1 }

/-- ExitCreate_type: decrement, no clamp. -/
def StatementListener.ExitCreate_type (l : StatementListener) : StatementListener :=
  { l with plsqlBlockDepth := l.plsqlBlockDepth - 1 }

/-- EnterCreate_type_body. -/
def StatementListener.EnterCreate_type_body (l : StatementListener) : StatementListener :=
  { l with currentType := "CREATE_TYPE_BODY", plsqlBlockDepth := l.plsqlBlockDepth + 1 }

/-- ExitCreate_type_body: decrement, no clamp. -/
def StatementListener.ExitCreate_type_body (l : StatementListener) : StatementListener :=
  { l with plsqlBlockDepth := l.plsqlBlockDepth - 1 }

/-- EnterAnonymous_block: increment depth first; skip when the block is
nested (new depth above 1) or a token is unresolvable; otherwise append one
statement tagged PLSQL_BLOCK directly from the rule identity. -/
def StatementListener.EnterAnonymous_block (l0 : StatementListener) (info : NodeInfo) :
    StatementListener :=
  let l := { l0 with plsqlBlockDepth := l0.plsqlBlockDepth + 1 }
  if l.plsqlBlockDepth > 1 then l
  else
    match info.start, info.stop with
    | some start, some stop =>
        { l with Statements := l.Statements ++
            [mkStatementModel info.content start stop "PLSQL_BLOCK"] }
    | _, _ => l

/-- ExitAnonymous_block: decrement and clamp at zero. -/
def StatementListener.ExitAnonymous_block (l0 : StatementListener) : StatementListener :=
  let l := { l0 with plsqlBlockDepth := l0.plsqlBlockDepth - 1 }
  if l.plsqlBlockDepth < 0 then { l with plsqlBlockDepth := 0 } else l

/-- EnterBlock: increment depth only. -/
def StatementListener.EnterBlock (l : StatementListener) : StatementListener :=
  { l with plsqlBlockDepth := l.plsqlBlockDepth + 1 }

/-- ExitBlock: decrement and clamp at zero. -/
def StatementListener.ExitBlock (l0 : StatementListener) : StatementListener :=
  let l := { l0 with plsqlBlockDepth := l0.plsqlBlockDepth - 1 }
  if l.plsqlBlockDepth < 0 then { l with plsqlBlockDepth := 0 } else l

/-- EnterDeclare_block: increment depth only. -/
def StatementListener.EnterDeclare_block (l : StatementListener) : StatementListener :=
  { l with plsqlBlockDepth := l.plsqlBlockDepth + 1 }

/-- ExitDeclare_block: decrement and clamp at zero. -/
def StatementListener.ExitDeclare_block (l0 : StatementListener) : StatementListener :=
  let l := { l0 with plsqlBlockDepth := l0.plsqlBlockDepth - 1 }
  if l.plsqlBlockDepth < 0 then { l with plsqlBlockDepth := 0 } else l

/-- Dispatch of a walk callback to the overridden handler; rules with no
override (including Seq_of_declare_specs, whose handlers only log) leave
the listener untouched. -/
def stepEvent (l : StatementListener) (e : Event) : StatementListener :=
  match e with
  | .enter .unitStatement info => l.EnterUnit_statement info
  | .enter .sqlStatement info => l.EnterSql_statement info
  | .enter .transactionControl info => l.EnterTransaction_control_statements info
  | .enter .createProcedureBody _ => l.EnterCreate_procedure_body
  | .enter .createFunctionBody _ => l.EnterCreate_function_body
  | .enter .createPackage _ => l.EnterCreate_package
  | .enter .createPackageBody _ => l.EnterCreate_package_body
  | .enter .createTrigger _ => l.EnterCreate_trigger
  | .enter .createType _ => l.EnterCreate_type
  | .enter .createTypeBody _ => l.EnterCreate_type_body
  | .enter .anonymousBlock info => l.EnterAnonymous_block info
  | .enter .block _ => l.EnterBlock
  | .enter .declareBlock _ => l.EnterDeclare_block
  | .enter .seqOfDeclareSpecs _ => l
  | .exit .unitStatement => l
  | .exit .sqlStatement => l
  | .exit .transactionControl => l
  | .exit .createProcedureBody => l.ExitCreate_procedure_body
  | .exit .createFunctionBody => l.ExitCreate_function_body
  | .exit .createPackage => l.ExitCreate_package
  | .exit .createPackageBody => l.ExitCreate_package_body
  | .exit .createTrigger => l.ExitCreate_trigger
  | .exit .createType => l.ExitCreate_type
  | .exit .createTypeBody => l.ExitCreate_type_body
  | .exit .anonymousBlock => l.ExitAnonymous_block
  | .exit .block => l.ExitBlock
  | .exit .declareBlock => l.ExitDeclare_block
  | .exit .seqOfDeclareSpecs => l

/-- Run the listener over a whole event stream (the tree walk). -/
def runEvents (l : StatementListener) (es : List Event) : StatementListener :=
  es.foldl stepEvent l

/-- Exit events whose Go handler decrements the depth counter without the
clamp at zero: the seven create-rule exits. -/
def isUnclampedExit : Event → Bool
  | .exit .createProcedureBody => true
  | .exit .createFunctionBody => true
  | .exit .createPackage => true
  | .exit .createPackageBody => true
  | .exit .createTrigger => true
  | .exit .createType => true
  | .exit .createTypeBody => true
  | _ => false

/-- The block-opening rules that set a current type marker on enter,
paired with the marker each one records. -/
def createBodyTags : List (RuleKind × String) :=
  [ (.createProcedureBody, "CREATE_PROCEDURE"),
    (.createFunctionBody, "CREATE_FUNCTION"),
    (.createPackage, "CREATE_PACKAGE"),
    (.createPackageBody, "CREATE_PACKAGE_BODY"),
    (.createTrigger, "CREATE_TRIGGER"),
    (.createType, "CREATE_TYPE"),
    (.createTypeBody, "CREATE_TYPE_BODY") ]

/-! ### Deduplicator (deduplicateStatements, parser.go) -/

/-- Position key of a statement, as fmt.Sprintf("%d:%d:%d:%d", StartLine,
StartColumn, EndLine, EndColumn). -/
def statementKey (stmt : statementModel) : String :=
  toString stmt.StartLine ++ ":" ++ toString stmt.StartColumn ++ ":" ++
    toString stmt.EndLine ++ ":" ++ toString stmt.EndColumn

/-- Lookup in the insertion-ordered association list modelling the Go map. -/
def lookupKey : List (String × statementModel) → String → Option statementModel
  | [], _ => none
  | p :: rest, k => if p.1 = k then some p.2 else lookupKey rest k

/-- Map write: replace the entry at the key in place, or append a new entry
at the end when the key is absent. -/
def setKey : List (String × statementModel) → String → statementModel → List (String × statementModel)
  | [], k, v => [(k, v)]
  | p :: rest, k, v => if p.1 = k then (k, v) :: rest else p :: setKey rest k v

/-- One iteration of the dedup loop: write the statement into the map when
its key is absent, or when the stored record has type UNKNOWN and the new
one does not. -/
def dedupInsert (m : List (String × statementModel)) (stmt : statementModel) :
    List (String × statementModel) :=
  match lookupKey m (statementKey stmt) with
  | none => setKey m (statementKey stmt) stmt
  | some existing =>
      if existing.type = "UNKNOWN" ∧ stmt.type ≠ "UNKNOWN" then
        setKey m (statementKey stmt) stmt
      else m

/-- The sort.Slice comparison closure, as a total preorder: the output is
ordered by start line, then start column. -/
def stmtLe (a b : statementModel) : Prop :=
  a.StartLine < b.StartLine ∨ (a.StartLine = b.StartLine ∧ a.StartColumn ≤ b.StartColumn)

instance : DecidableRel stmtLe := fun a b =>
  inferInstanceAs (Decidable (a.StartLine < b.StartLine ∨
    (a.StartLine = b.StartLine ∧ a.StartColumn ≤ b.StartColumn)))

instance : IsTotal statementModel stmtLe :=
  ⟨by intro a b; unfold stmtLe; omega⟩

instance : IsTrans statementModel stmtLe :=
  ⟨by intro a b c; unfold stmtLe; omega⟩

/-- Embedding of deduplicateStatements: early return on the empty slice;
fold the statements into the position-keyed map; collect the map's values;
sort by (StartLine, StartColumn). -/
def deduplicateStatements (statements : List statementModel) : List statementModel :=
  match statements with
  | [] => statements
  | _ :: _ =>
      let uniqueMap := statements.foldl dedupInsert []
      let result := uniqueMap.map Prod.snd
      List.insertionSort stmtLe result

/-! ### Error listener and diagnostic context builder (parser.go) -/

/-- Internal syntax error record (parser.SyntaxError). -/
structure SyntaxError where
  Line : Int
  Column : Int
  Message : String
  TokenText : String
  Context : String
deriving DecidableEq

/-- The error-capturing listener (CustomErrorListener). -/
structure CustomErrorListener where
  Errors : List SyntaxError
  MaxErrors : Int
  SourceText : String
  ContextLines : Int
deriving DecidableEq

/-- NewCustomErrorListener: a non-positive max-error count is replaced by
the default 10; a negative context-line count is replaced by 0. -/
def NewCustomErrorListener (maxErrors : Int) (sourceText : String) (contextLines : Int) :
    CustomErrorListener :=
  let m := if maxErrors ≤ 0 then 10 else maxErrors
  let c := if contextLines < 0 then 0 else contextLines
  { Errors := [], MaxErrors := m, SourceText := sourceText, ContextLines := c }

/-- The caret marker line written right after the error line: spaces up to
the prefix width plus the column, then a single caret; a column outside the
line's length puts the caret at the line start. -/
def markerRow (padding : Nat) (column : Int) (lineContent : String) : String :=
  let markerPosition : Int := (padding : Int) + 3
  if column > 0 ∧ column ≤ (lineContent.length : Int) then
    spaces (markerPosition + column - 1).toNat ++ "^"
  else
    spaces markerPosition.toNat ++ "^"

/-- The loop body of extractErrorContext, producing the output lines in
order: one numbered content row per line of the window, with the marker
row inserted right after the error line.  The Nat argument counts the
remaining window lines, the Int argument is the current line number. -/
def contextRows (lines : List String) (padding : Nat) (errLine column : Int) :
    Int → Nat → List String
  | _, 0 => []
  | i, n + 1 =>
      let lineContent := lines.getD (i - 1).toNat ""
      let row := lineNumberFor padding i ++ " " ++ lineContent
      if i = errLine then
        row :: markerRow padding column lineContent ::
          contextRows lines padding errLine column (i + 1) n
      else
        row :: contextRows lines padding errLine column (i + 1) n

/-- The context window of extractErrorContext: start at the error line
minus the radius (floored at line 1), end at the error line plus the radius
(capped at the last line); a zero radius degenerates to exactly the error
line. -/
def contextWindow (numLines contextLinesCfg line : Int) : Int × Int :=
  let startLine := if line - contextLinesCfg < 1 then 1 else line - contextLinesCfg
  let endLine := if line + contextLinesCfg > numLines then numLines else line + contextLinesCfg
  if contextLinesCfg = 0 then (line, line) else (startLine, endLine)

/-- The rendered context, line by line: empty when the error line is out of
range; otherwise the window rows with line-number prefixes padded to the
digit count of the last displayed line number. -/
def CustomErrorListener.extractErrorRows (l : CustomErrorListener) (line column : Int) :
    List String :=
  let lines := splitLines l.SourceText
  if line ≤ 0 ∨ line > (lines.length : Int) then []
  else
    let w := contextWindow (lines.length : Int) l.ContextLines line
    let padding := (toString w.2).length
    contextRows lines padding line column w.1 (w.2 - w.1 + 1).toNat

/-- Embedding of extractErrorContext: the rows joined, each terminated by a
newline, exactly as the strings.Builder writes them. -/
def CustomErrorListener.extractErrorContext (l : CustomErrorListener) (line column : Int) :
    String :=
  String.join ((l.extractErrorRows line column).map (fun r => r ++ "\n"))

/-- One syntax error as the parser reports it to the listener: location,
message, and the offending token's text (empty when the offending symbol is
not a token). -/
structure ReportedError where
  line : Int
  column : Int
  msg : String
  tokenText : String
deriving DecidableEq

/-- Embedding of CustomErrorListener.SyntaxError: a no-op once the stored
error count has reached MaxErrors; otherwise enhance the message for the
known nested-block pattern, render the context when source text is
available, and append the record. -/
def CustomErrorListener.SyntaxError (l : CustomErrorListener) (r : ReportedError) :
    CustomErrorListener :=
  if (l.Errors.length : Int) ≥ l.MaxErrors then l
  else
    let enhancedMsg :=
      if strContains r.msg "no viable alternative" ∧ strContains r.tokenText "BEGIN" then
        r.msg ++ " - This might be an issue with nested PL/SQL blocks. Check the block structure and ensure BEGIN/END pairs match."
      else r.msg
    let context :=
      if l.SourceText ≠ "" then l.extractErrorContext r.line r.column else ""
    { l with Errors := l.Errors ++
        [{ Line := r.line, Column := r.column, Message := enhancedMsg,
           TokenText := r.tokenText, Context := context }] }

/-! ### Public splitter front-end (pkg/splitter, pkg/statement) -/

/-- Splitter configuration (pkg/splitter.Splitter). -/
structure Splitter where
  includePosition : Bool
  verboseErrors : Bool
  maxErrors : Int
  includeContext : Bool
  includeErrorStatement : Bool
  contextLines : Int
deriving DecidableEq

/-- NewSplitter with no options: the defaults set in the constructor. -/
def NewSplitter : Splitter :=
  { includePosition := true
    verboseErrors := false
    maxErrors := 1
    includeContext := false
    includeErrorStatement := false
    contextLines := 3 }

/-- Public syntax error (pkg/splitter.SyntaxError). -/
structure SplitterSyntaxError where
  Line : Int
  Column : Int
  Message : String
  Statement : String
  Context : String
deriving DecidableEq

/-- Public statement (pkg/splitter.Statement); the Go field named Type is
called type here. -/
structure SplitterStatement where
  Content : String
  StartLine : Int
  EndLine : Int
  StartColumn : Int
  EndColumn : Int
  type : String
deriving DecidableEq

/-- The case labels of statement.Parse (pkg/statement/type.go); every case
returns the constant whose string value equals its own label. -/
def knownStatementTypes : List String :=
  [ "SELECT", "INSERT", "UPDATE", "DELETE", "MERGE",
    "CREATE_TABLE", "CREATE_VIEW", "CREATE_INDEX", "CREATE_SEQUENCE",
    "CREATE_PROCEDURE", "CREATE_FUNCTION", "CREATE_PACKAGE", "CREATE_PACKAGE_BODY",
    "CREATE_TRIGGER", "CREATE_TYPE", "CREATE_TYPE_BODY", "CREATE_MATERIALIZED_VIEW",
    "CREATE_SYNONYM", "CREATE_DATABASE_LINK", "CREATE",
    "ALTER_TABLE", "ALTER_INDEX", "ALTER_PROCEDURE", "ALTER_FUNCTION",
    "ALTER_PACKAGE", "ALTER_TRIGGER", "ALTER_SEQUENCE", "ALTER",
    "DROP_TABLE", "DROP_INDEX", "DROP_PROCEDURE", "DROP_FUNCTION",
    "DROP_PACKAGE", "DROP_TRIGGER", "DROP_SEQUENCE", "DROP_VIEW", "DROP",
    "TRUNCATE", "GRANT", "REVOKE", "COMMIT", "ROLLBACK", "SAVEPOINT",
    "TRANSACTION", "PLSQL_BLOCK", "SLASH", "EXPLAIN_PLAN", "COMMENT",
    "SET_TRANSACTION", "LOCK_TABLE", "EXECUTE", "SHOW", "DESCRIBE" ]

/-- Embedding of statement.Parse: uppercase the input, return it when it is
one of the case labels, otherwise UNKNOWN. -/
def statementParse (s : String) : String :=
  let u := toUpperStr s
  if u ∈ knownStatementTypes then u else "UNKNOWN"

/-- Embedding of Splitter.SplitString (pkg/splitter/models.go).  The call
to the external ANTLR parse (ParseStringWithOptions) is out of the core's
scope, so its outcome — the deduplicated statement list and the captured
syntax errors — is passed in as arguments; everything SplitString does with
that outcome is modelled here.  The Go pair (nil, err) is the error
constructor, (statements, nil) the ok constructor. -/
def Splitter.SplitString (s : Splitter) (content : String)
    (parsedStatements : List statementModel) (syntaxErrors : List SyntaxError) :
    Except SplitterSyntaxError (List SplitterStatement) :=
  if trimStr content = "" then .ok []
  else
    match syntaxErrors with
    | [] =>
        .ok (parsedStatements.map fun stmt =>
          { Content := stmt.Content
            type := statementParse stmt.type
            StartLine := if s.includePosition then stmt.StartLine else 0
            EndLine := if s.includePosition then stmt.EndLine else 0
            StartColumn := if s.includePosition then stmt.StartColumn else 0
            EndColumn := if s.includePosition then stmt.EndColumn else 0 })
    | firstError :: _ =>
        if s.verboseErrors then
          let numShown : Nat :=
            if s.maxErrors ≤ 0 ∨ (syntaxErrors.length : Int) < s.maxErrors then
              syntaxErrors.length
            else s.maxErrors.toNat
          let errorMessages := (syntaxErrors.take numShown).map fun err =>
            let errMsg := "Line " ++ toString err.Line ++ ", Column " ++ toString err.Column
              ++ ": " ++ err.Message
            if s.includeContext ∧ err.Context ≠ "" then errMsg ++ "\n" ++ err.Context
            else errMsg
          let errorMessages :=
            if numShown < syntaxErrors.length then
              errorMessages ++
                ["... and " ++ toString (syntaxErrors.length - numShown) ++ " more errors"]
            else errorMessages
          .error
            { Message := joinWith "\n" errorMessages
              Line := firstError.Line
              Column := firstError.Column
              Context := firstError.Context
              Statement :=
                if s.includeErrorStatement ∧ firstError.Context ≠ "" then
                  (splitLines firstError.Context).headD ""
                else "" }
        else
          .error
            { Message := firstError.Message
              Line := firstError.Line
              Column := firstError.Column
              Context := firstError.Context
              Statement :=
                if s.includeErrorStatement ∧ firstError.Context ≠ "" then
                  (splitLines firstError.Context).headD ""
                else "" }

/-! ### Concrete fixtures used by the claim theorems -/

/-- Start token of the anonymous-block fixture. -/
def c1BlockStart : Token := { line := 1, column := 0, text := "BEGIN" }

/-- Stop token of the anonymous-block fixture. -/
def c1BlockStop : Token := { line := 4, column := 3, text := ";" }

/-- Rule span of the whole anonymous block BEGIN ... UPDATE ...; COMMIT;
END; as both the unit-statement rule and the anonymous-block rule see it. -/
def c1Block : NodeInfo :=
  { start := some c1BlockStart
    stop := some c1BlockStop
    content := "BEGIN\n  UPDATE employees SET salary = 1000;\n  COMMIT;\nEND;" }

/-- Rule span of the UPDATE statement nested in the block body. -/
def c1UpdateInfo : NodeInfo :=
  { start := some { line := 2, column := 2, text := "UPDATE" }
    stop := some { line := 2, column := 32, text := "1000" }
    content := "UPDATE employees SET salary = 1000" }

/-- Rule span of the COMMIT statement nested in the block body. -/
def c1CommitInfo : NodeInfo :=
  { start := some { line := 3, column := 2, text := "COMMIT" }
    stop := some { line := 3, column := 2, text := "COMMIT" }
    content := "COMMIT" }

/-- The walk of the anonymous-block input: the enclosing unit-statement
rule, the anonymous-block rule, then the nested UPDATE and COMMIT rules
inside the block body. -/
def c1Events : List Event :=
  [ .enter .unitStatement c1Block,
    .enter .anonymousBlock c1Block,
    .enter .sqlStatement c1UpdateInfo,
    .enter .transactionControl c1CommitInfo,
    .exit .anonymousBlock,
    .exit .unitStatement ]

/-- The single statement the anonymous-block input is expected to yield. -/
def c1Expected : statementModel :=
  { Content := "BEGIN\n  UPDATE employees SET salary = 1000;\n  COMMIT;\nEND;"
    StartLine := 1
    EndLine := 4
    StartColumn := 0
    EndColumn := 4
    type := "PLSQL_BLOCK" }

/-- Rule span of a create-procedure-body fixture. -/
def c2ProcInfo : NodeInfo :=
  { start := some { line := 1, column := 0, text := "CREATE" }
    stop := some { line := 4, column := 4, text := ";" }
    content := "CREATE OR REPLACE PROCEDURE p IS\nBEGIN\n  NULL;\nEND;" }

/-- Duplicate-position record tagged UNKNOWN. -/
def c4Unknown : statementModel :=
  { Content := "SELECT * FROM employees"
    StartLine := 1, EndLine := 1, StartColumn := 0, EndColumn := 23
    type := "UNKNOWN" }

/-- Duplicate-position record tagged SELECT. -/
def c4Select : statementModel :=
  { Content := "SELECT * FROM employees"
    StartLine := 1, EndLine := 1, StartColumn := 0, EndColumn := 23
    type := "SELECT" }

/-- A reported syntax error fed repeatedly to the listener. -/
def c7Report : ReportedError :=
  { line := 1, column := 5, msg := "mismatched input", tokenText := "" }

/-- A ten-line source document. -/
def c8Source : String := "l1\nl2\nl3\nl4\nl5\nl6\nl7\nl8\nl9\nl10"

/-- A listener over the ten-line document with context radius 2. -/
def c8Listener : CustomErrorListener := NewCustomErrorListener 1 c8Source 2

/-- A listener over the ten-line document with context radius 0. -/
def c8ListenerZero : CustomErrorListener := NewCustomErrorListener 1 c8Source 0

/-- A listener whose error store has already reached its cap. -/
def c7AtCap : CustomErrorListener :=
  { Errors := [{ Line := 1, Column := 5, Message := "mismatched input",
                 TokenText := "", Context := "" }]
    MaxErrors := 1
    SourceText := ""
    ContextLines := 0 }

/-- A captured syntax error handed to the splitter front-end. -/
def c10Error : SyntaxError :=
  { Line := 1, Column := 14, Message := "mismatched input", TokenText := ";", Context := "" }

/-- A listener already inside a PL/SQL block (depth 1). -/
def c1DepthOne : StatementListener :=
  { Statements := [], currentType := "", plsqlBlockDepth := 1 }

/-! ### Lemmas about the listener's depth counter -/

theorem EnterUnit_statement_depth (l : StatementListener) (info : NodeInfo) :
    (l.EnterUnit_statement info).plsqlBlockDepth = l.plsqlBlockDepth := by
  unfold StatementListener.EnterUnit_statement
  split
  · rfl
  · split <;> rfl

theorem EnterSql_statement_depth (l : StatementListener) (info : NodeInfo) :
    (l.EnterSql_statement info).plsqlBlockDepth = l.plsqlBlockDepth := by
  unfold StatementListener.EnterSql_statement
  split
  · rfl
  · split <;> rfl

theorem EnterTransaction_depth (l : StatementListener) (info : NodeInfo) :
    (l.EnterTransaction_control_statements info).plsqlBlockDepth = l.plsqlBlockDepth := by
  unfold StatementListener.EnterTransaction_control_statements
  split
  · rfl
  · split <;> rfl

theorem EnterAnonymous_block_depth (l : StatementListener) (info : NodeInfo) :
    (l.EnterAnonymous_block info).plsqlBlockDepth = l.plsqlBlockDepth + 1 := by
  unfold StatementListener.EnterAnonymous_block
  dsimp only
  split <;> first | rfl | (split <;> rfl)

theorem ExitAnonymous_block_depth_nonneg (l : StatementListener) :
    0 ≤ (l.ExitAnonymous_block).plsqlBlockDepth := by
  unfold StatementListener.ExitAnonymous_block
  dsimp only
  split <;> simp_all

theorem ExitBlock_depth_nonneg (l : StatementListener) :
    0 ≤ (l.ExitBlock).plsqlBlockDepth := by
  unfold StatementListener.ExitBlock
  dsimp only
  split <;> simp_all

theorem ExitDeclare_block_depth_nonneg (l : StatementListener) :
    0 ≤ (l.ExitDeclare_block).plsqlBlockDepth := by
  unfold StatementListener.ExitDeclare_block
  dsimp only
  split <;> simp_all

theorem stepEvent_depth_nonneg (l : StatementListener) (e : Event)
    (he : isUnclampedExit e = false) (hl : 0 ≤ l.plsqlBlockDepth) :
    0 ≤ (stepEvent l e).plsqlBlockDepth := by
  cases e with
  | enter k info =>
      cases k <;>
        simp only [stepEvent, EnterUnit_statement_depth, EnterSql_statement_depth,
          EnterTransaction_depth, EnterAnonymous_block_depth,
          StatementListener.EnterCreate_procedure_body,
          StatementListener.EnterCreate_function_body,
          StatementListener.EnterCreate_package,
          StatementListener.EnterCreate_package_body,
          StatementListener.EnterCreate_trigger,
          StatementListener.EnterCreate_type,
          StatementListener.EnterCreate_type_body,
          StatementListener.EnterBlock,
          StatementListener.EnterDeclare_block] <;>
        omega
  | exit k =>
      cases k
      case unitStatement => simpa only [stepEvent] using hl
      case sqlStatement => simpa only [stepEvent] using hl
      case transactionControl => simpa only [stepEvent] using hl
      case seqOfDeclareSpecs => simpa only [stepEvent] using hl
      case anonymousBlock => exact ExitAnonymous_block_depth_nonneg l
      case block => exact ExitBlock_depth_nonneg l
      case declareBlock => exact ExitDeclare_block_depth_nonneg l
      all_goals simp [isUnclampedExit] at he

theorem runEvents_depth_nonneg (es : List Event) :
    ∀ l : StatementListener, (∀ e ∈ es, isUnclampedExit e = false) →
      0 ≤ l.plsqlBlockDepth → 0 ≤ (runEvents l es).plsqlBlockDepth := by
  induction es with
  | nil => intro l _ hl; exact hl
  | cons e es ih =>
      intro l hes hl
      have h1 : 0 ≤ (stepEvent l e).plsqlBlockDepth :=
        stepEvent_depth_nonneg l e (hes e (List.mem_cons_self e es)) hl
      have : runEvents l (e :: es) = runEvents (stepEvent l e) es := rfl
      rw [this]
      exact ih (stepEvent l e) (fun x hx => hes x (List.mem_cons_of_mem e hx)) h1

/-! ### Claim C1 -/

/-- C1: depth-gating of top-level statements.  A sql-statement,
unit-statement or transaction-control rule entered while the PL/SQL block
depth counter is positive contributes no statement; one entered at depth
zero with resolvable start and stop tokens appends exactly one; and the
walk of an input consisting of one anonymous block containing an UPDATE
and a COMMIT yields, after deduplication, exactly one statement of type
PLSQL_BLOCK covering the whole block. -/
theorem C1_depth_gating :
    (∀ (l : StatementListener) (info : NodeInfo), 0 < l.plsqlBlockDepth →
        stepEvent l (.enter .sqlStatement info) = l ∧
        stepEvent l (.enter .unitStatement info) = l ∧
        stepEvent l (.enter .transactionControl info) = l) ∧
    (∀ (l : StatementListener) (info : NodeInfo) (s t : Token),
        l.plsqlBlockDepth = 0 → info.start = some s → info.stop = some t →
        (stepEvent l (.enter .sqlStatement info)).Statements
          = l.Statements ++
            [mkStatementModel info.content s t (getDeterminedStatementType info.content)]) ∧
    deduplicateStatements (runEvents NewStatementListener c1Events).Statements
      = [c1Expected] ∧
    c1Expected.type = "PLSQL_BLOCK" := by
  refine ⟨?_, ?_, by decide, rfl⟩
  · intro l info h
    refine ⟨?_, ?_, ?_⟩ <;>
      simp [stepEvent, StatementListener.EnterSql_statement,
        StatementListener.EnterUnit_statement,
        StatementListener.EnterTransaction_control_statements, h]
  · intro l info s t h hs ht
    simp [stepEvent, StatementListener.EnterSql_statement, h, hs, ht]

/-- Witness for C1: the gating hypothesis discharged at depth one, and the
emission hypothesis discharged at depth zero with resolvable tokens. -/
theorem C1_depth_gating_witness :
    stepEvent c1DepthOne (.enter .sqlStatement c1UpdateInfo) = c1DepthOne ∧
    (stepEvent NewStatementListener (.enter .sqlStatement c1UpdateInfo)).Statements
      = NewStatementListener.Statements ++
        [mkStatementModel c1UpdateInfo.content { line := 2, column := 2, text := "UPDATE" }
          { line := 2, column := 32, text := "1000" }
          (getDeterminedStatementType c1UpdateInfo.content)] :=
  ⟨(C1_depth_gating.1 c1DepthOne c1UpdateInfo (by decide)).1,
   C1_depth_gating.2.1 NewStatementListener c1UpdateInfo _ _ rfl rfl rfl⟩

/-! ### Claim C2 -/

/-- C2 counterexample: entering create-procedure-body at depth zero
transitions the depth counter from 0 to 1 but emits no statement at all
(the claim demands exactly one tagged from the rule identity). -/
theorem C2_counterexample :
    (stepEvent NewStatementListener (.enter .createProcedureBody c2ProcInfo)).plsqlBlockDepth = 1 ∧
    (stepEvent NewStatementListener (.enter .createProcedureBody c2ProcInfo)).Statements = [] ∧
    (stepEvent NewStatementListener (.enter .createProcedureBody c2ProcInfo)).Statements.length ≠ 1 :=
  ⟨rfl, rfl, by decide⟩

/-- C2 amended: only the anonymous-block rule emits a statement on enter at
the 0-to-1 depth transition, tagged PLSQL_BLOCK from rule identity; every
create-X body rule only records a current-type marker derived from the rule
identity and increments the depth, emitting nothing. -/
theorem C2_amended :
    (∀ (l : StatementListener) (info : NodeInfo) (s t : Token),
        l.plsqlBlockDepth = 0 → info.start = some s → info.stop = some t →
        stepEvent l (.enter .anonymousBlock info)
          = { l with
                plsqlBlockDepth := 1
                Statements := l.Statements ++
                  [mkStatementModel info.content s t "PLSQL_BLOCK"] }) ∧
    (∀ kt, kt ∈ createBodyTags → ∀ (l : StatementListener) (info : NodeInfo),
        stepEvent l (.enter kt.1 info)
          = { l with
                currentType := kt.2
                plsqlBlockDepth := l.plsqlBlockDepth + 1 }) := by
  constructor
  · intro l info s t h hs ht
    simp [stepEvent, StatementListener.EnterAnonymous_block, h, hs, ht]
  · intro kt hkt l info
    simp only [createBodyTags, List.mem_cons, List.not_mem_nil, or_false] at hkt
    rcases hkt with h | h | h | h | h | h | h <;> subst h <;> rfl

/-- Witness for C2 amended: the anonymous-block emission and the
create-procedure-body marker at concrete inputs. -/
theorem C2_amended_witness :
    stepEvent NewStatementListener (.enter .anonymousBlock c1Block)
      = { NewStatementListener with
            plsqlBlockDepth := 1
            Statements := NewStatementListener.Statements ++
              [mkStatementModel c1Block.content c1BlockStart c1BlockStop "PLSQL_BLOCK"] } ∧
    stepEvent NewStatementListener (.enter .createProcedureBody c2ProcInfo)
      = { NewStatementListener with
            currentType := "CREATE_PROCEDURE"
            plsqlBlockDepth := NewStatementListener.plsqlBlockDepth + 1 } :=
  ⟨C2_amended.1 NewStatementListener c1Block c1BlockStart c1BlockStop rfl rfl rfl,
   C2_amended.2 (RuleKind.createProcedureBody, "CREATE_PROCEDURE") (by decide)
     NewStatementListener c2ProcInfo⟩

/-! ### Claim C3 -/

/-- C3 counterexample: a create-procedure-body exit without a matching
enter drives the depth counter to minus one — the exit handlers of the
create rules decrement without the clamp at zero. -/
theorem C3_counterexample :
    (runEvents NewStatementListener [Event.exit RuleKind.createProcedureBody]).plsqlBlockDepth
      = -1 ∧
    ¬ (0 ≤ (runEvents NewStatementListener
        [Event.exit RuleKind.createProcedureBody]).plsqlBlockDepth) :=
  ⟨by decide, by decide⟩

/-- C3 amended: the exits of anonymous-block, block and declare-block are
clamped at zero, so any event sequence free of create-rule exits keeps the
depth counter non-negative from the initial listener; and each clamped exit
leaves the counter non-negative from any state whatsoever. -/
theorem C3_amended :
    (∀ es : List Event, (∀ e ∈ es, isUnclampedExit e = false) →
        0 ≤ (runEvents NewStatementListener es).plsqlBlockDepth) ∧
    (∀ l : StatementListener,
        0 ≤ (l.ExitAnonymous_block).plsqlBlockDepth ∧
        0 ≤ (l.ExitBlock).plsqlBlockDepth ∧
        0 ≤ (l.ExitDeclare_block).plsqlBlockDepth) := by
  constructor
  · intro es hes
    exact runEvents_depth_nonneg es NewStatementListener hes (by decide)
  · intro l
    exact ⟨ExitAnonymous_block_depth_nonneg l, ExitBlock_depth_nonneg l,
      ExitDeclare_block_depth_nonneg l⟩

/-- Witness for C3 amended: a malformed exit-only sequence of clamped
kinds keeps the counter non-negative. -/
theorem C3_amended_witness :
    0 ≤ (runEvents NewStatementListener
      [Event.exit RuleKind.anonymousBlock, Event.exit RuleKind.block,
       Event.exit RuleKind.declareBlock]).plsqlBlockDepth ∧
    0 ≤ (NewStatementListener.ExitDeclare_block).plsqlBlockDepth :=
  ⟨C3_amended.1 _ (by decide), (C3_amended.2 NewStatementListener).2.2⟩

/-! ### Lemmas about the deduplicator's association-list map -/

theorem lookupKey_mem : ∀ {m : List (String × statementModel)} {k : String}
    {v : statementModel}, lookupKey m k = some v → (k, v) ∈ m := by
  intro m
  induction m with
  | nil => intro k v h; simp [lookupKey] at h
  | cons p rest ih =>
      intro k v h
      obtain ⟨k1, v1⟩ := p
      by_cases hp : k1 = k
      · subst hp
        simp [lookupKey] at h
        subst h
        exact List.mem_cons_self _ _
      · simp only [lookupKey, if_neg hp] at h
        exact List.mem_cons_of_mem _ (ih h)

theorem lookupKey_eq_none : ∀ {m : List (String × statementModel)} {k : String},
    lookupKey m k = none ↔ k ∉ m.map Prod.fst := by
  intro m
  induction m with
  | nil => intro k; simp [lookupKey]
  | cons p rest ih =>
      intro k
      obtain ⟨k1, v1⟩ := p
      by_cases hp : k1 = k
      · subst hp; simp [lookupKey]
      · have hp2 : ¬ k = k1 := fun he => hp he.symm
        simp [lookupKey, hp, hp2, ih]

theorem setKey_of_not_mem : ∀ {m : List (String × statementModel)} {k : String}
    (v : statementModel), k ∉ m.map Prod.fst → setKey m k v = m ++ [(k, v)] := by
  intro m
  induction m with
  | nil => intro k v _; rfl
  | cons p rest ih =>
      intro k v h
      obtain ⟨k1, v1⟩ := p
      simp only [List.map_cons, List.mem_cons] at h
      push_neg at h
      simp [setKey, Ne.symm h.1, ih v h.2]

theorem setKey_keys_of_mem : ∀ {m : List (String × statementModel)} {k : String}
    (v : statementModel), k ∈ m.map Prod.fst →
    (setKey m k v).map Prod.fst = m.map Prod.fst := by
  intro m
  induction m with
  | nil => intro k v h; simp at h
  | cons p rest ih =>
      intro k v h
      obtain ⟨k1, v1⟩ := p
      by_cases hp : k1 = k
      · subst hp; simp [setKey]
      · simp only [List.map_cons, List.mem_cons] at h
        rcases h with h | h
        · exact absurd h.symm hp
        · simp [setKey, hp, ih v h]

theorem lookup_setKey_self : ∀ (m : List (String × statementModel)) (k : String)
    (v : statementModel), lookupKey (setKey m k v) k = some v := by
  intro m
  induction m with
  | nil => intro k v; simp [setKey, lookupKey]
  | cons p rest ih =>
      intro k v
      obtain ⟨k1, v1⟩ := p
      by_cases hp : k1 = k
      · subst hp; simp [setKey, lookupKey]
      · simp [setKey, lookupKey, hp, ih]

theorem lookup_setKey_other : ∀ (m : List (String × statementModel)) {q k : String}
    (v : statementModel), q ≠ k → lookupKey (setKey m k v) q = lookupKey m q := by
  intro m
  induction m with
  | nil =>
      intro q k v h
      have h2 : ¬ k = q := fun he => h he.symm
      simp [setKey, lookupKey, h2]
  | cons p rest ih =>
      intro q k v h
      obtain ⟨k1, v1⟩ := p
      by_cases hp : k1 = k
      · subst hp
        have h2 : ¬ k1 = q := fun he => h he.symm
        simp [setKey, lookupKey, h2]
      · by_cases hq : k1 = q
        · subst hq; simp [setKey, lookupKey, hp]
        · simp [setKey, lookupKey, hp, hq, ih v h]

theorem mem_of_setKey : ∀ {m : List (String × statementModel)} {k : String}
    {v : statementModel} {p : String × statementModel},
    p ∈ setKey m k v → p ∈ m ∨ p = (k, v) := by
  intro m
  induction m with
  | nil =>
      intro k v p h
      simp only [setKey, List.mem_singleton] at h
      exact Or.inr h
  | cons q rest ih =>
      intro k v p h
      obtain ⟨k1, v1⟩ := q
      by_cases hp : k1 = k
      · subst hp
        simp [setKey] at h
        rcases h with h | h
        · exact Or.inr h
        · exact Or.inl (List.mem_cons_of_mem _ h)
      · simp [setKey, hp] at h
        rcases h with h | h
        · exact Or.inl (h ▸ List.mem_cons_self _ _)
        · rcases ih h with h1 | h1
          · exact Or.inl (List.mem_cons_of_mem _ h1)
          · exact Or.inr h1

theorem dedupInsert_none_eq {m : List (String × statementModel)}
    {stmt : statementModel} (hl : lookupKey m (statementKey stmt) = none) :
    dedupInsert m stmt = setKey m (statementKey stmt) stmt := by
  unfold dedupInsert
  rw [hl]

theorem dedupInsert_some_eq {m : List (String × statementModel)}
    {stmt existing : statementModel}
    (hl : lookupKey m (statementKey stmt) = some existing) :
    dedupInsert m stmt =
      if existing.type = "UNKNOWN" ∧ stmt.type ≠ "UNKNOWN" then
        setKey m (statementKey stmt) stmt
      else m := by
  unfold dedupInsert
  rw [hl]

theorem wf_dedupInsert {m : List (String × statementModel)} {stmt : statementModel}
    (hm : ∀ p ∈ m, statementKey p.2 = p.1) :
    ∀ p ∈ dedupInsert m stmt, statementKey p.2 = p.1 := by
  intro p hp
  cases hl : lookupKey m (statementKey stmt) with
  | none =>
      rw [dedupInsert_none_eq hl] at hp
      rcases mem_of_setKey hp with h | h
      · exact hm p h
      · subst h; rfl
  | some existing =>
      rw [dedupInsert_some_eq hl] at hp
      by_cases hc : existing.type = "UNKNOWN" ∧ stmt.type ≠ "UNKNOWN"
      · rw [if_pos hc] at hp
        rcases mem_of_setKey hp with h | h
        · exact hm p h
        · subst h; rfl
      · rw [if_neg hc] at hp
        exact hm p hp

theorem keys_nodup_dedupInsert {m : List (String × statementModel)}
    {stmt : statementModel} (hm : (m.map Prod.fst).Nodup) :
    ((dedupInsert m stmt).map Prod.fst).Nodup := by
  cases hl : lookupKey m (statementKey stmt) with
  | none =>
      rw [dedupInsert_none_eq hl, setKey_of_not_mem _ (lookupKey_eq_none.mp hl)]
      simp only [List.map_append, List.map_cons, List.map_nil]
      rw [List.nodup_append]
      exact ⟨hm, List.nodup_singleton _,
        by simpa using lookupKey_eq_none.mp hl⟩
  | some existing =>
      have hmem : statementKey stmt ∈ m.map Prod.fst :=
        List.mem_map_of_mem Prod.fst (lookupKey_mem hl)
      rw [dedupInsert_some_eq hl]
      by_cases hc : existing.type = "UNKNOWN" ∧ stmt.type ≠ "UNKNOWN"
      · rw [if_pos hc, setKey_keys_of_mem _ hmem]
        exact hm
      · rw [if_neg hc]
        exact hm

theorem self_mem_keys_dedupInsert (m : List (String × statementModel))
    (stmt : statementModel) :
    statementKey stmt ∈ (dedupInsert m stmt).map Prod.fst := by
  cases hl : lookupKey m (statementKey stmt) with
  | none =>
      rw [dedupInsert_none_eq hl, setKey_of_not_mem _ (lookupKey_eq_none.mp hl)]
      simp
  | some existing =>
      have hmem : statementKey stmt ∈ m.map Prod.fst :=
        List.mem_map_of_mem Prod.fst (lookupKey_mem hl)
      rw [dedupInsert_some_eq hl]
      by_cases hc : existing.type = "UNKNOWN" ∧ stmt.type ≠ "UNKNOWN"
      · rw [if_pos hc, setKey_keys_of_mem _ hmem]
        exact hmem
      · rw [if_neg hc]
        exact hmem

theorem mem_keys_dedupInsert_mono {m : List (String × statementModel)} {k : String}
    (stmt : statementModel) (h : k ∈ m.map Prod.fst) :
    k ∈ (dedupInsert m stmt).map Prod.fst := by
  cases hl : lookupKey m (statementKey stmt) with
  | none =>
      rw [dedupInsert_none_eq hl, setKey_of_not_mem _ (lookupKey_eq_none.mp hl)]
      simp only [List.map_append, List.mem_append]
      exact Or.inl h
  | some existing =>
      have hmem : statementKey stmt ∈ m.map Prod.fst :=
        List.mem_map_of_mem Prod.fst (lookupKey_mem hl)
      rw [dedupInsert_some_eq hl]
      by_cases hc : existing.type = "UNKNOWN" ∧ stmt.type ≠ "UNKNOWN"
      · rw [if_pos hc, setKey_keys_of_mem _ hmem]
        exact h
      · rw [if_neg hc]
        exact h

theorem foldl_wf (l : List statementModel) :
    ∀ m : List (String × statementModel), (∀ p ∈ m, statementKey p.2 = p.1) →
      ∀ p ∈ l.foldl dedupInsert m, statementKey p.2 = p.1 := by
  induction l with
  | nil => intro m hm; exact hm
  | cons a l ih =>
      intro m hm
      exact ih (dedupInsert m a) (wf_dedupInsert hm)

theorem foldl_keys_nodup (l : List statementModel) :
    ∀ m : List (String × statementModel), (m.map Prod.fst).Nodup →
      ((l.foldl dedupInsert m).map Prod.fst).Nodup := by
  induction l with
  | nil => intro m hm; exact hm
  | cons a l ih =>
      intro m hm
      exact ih (dedupInsert m a) (keys_nodup_dedupInsert hm)

theorem foldl_keys_mono (l : List statementModel) :
    ∀ {m : List (String × statementModel)} {k : String}, k ∈ m.map Prod.fst →
      k ∈ (l.foldl dedupInsert m).map Prod.fst := by
  induction l with
  | nil => intro m k h; exact h
  | cons a l ih =>
      intro m k h
      exact ih (mem_keys_dedupInsert_mono a h)

theorem foldl_mem_keys (l : List statementModel) :
    ∀ (m : List (String × statementModel)) (s : statementModel), s ∈ l →
      statementKey s ∈ (l.foldl dedupInsert m).map Prod.fst := by
  induction l with
  | nil => intro m s h; cases h
  | cons a l ih =>
      intro m s h
      rcases List.mem_cons.mp h with h | h
      · subst h
        exact foldl_keys_mono l (self_mem_keys_dedupInsert m s)
      · exact ih (dedupInsert m a) s h

theorem lookup_dedupInsert_nonUnknown {m : List (String × statementModel)} {k : String}
    {v : statementModel} (stmt : statementModel)
    (h : lookupKey m k = some v) (hv : v.type ≠ "UNKNOWN") :
    ∃ w, lookupKey (dedupInsert m stmt) k = some w ∧ w.type ≠ "UNKNOWN" := by
  by_cases hk : statementKey stmt = k
  · subst hk
    rw [dedupInsert_some_eq h]
    by_cases hc : v.type = "UNKNOWN" ∧ stmt.type ≠ "UNKNOWN"
    · exact absurd hc.1 hv
    · rw [if_neg hc]
      exact ⟨v, h, hv⟩
  · cases hl : lookupKey m (statementKey stmt) with
    | none =>
        rw [dedupInsert_none_eq hl, lookup_setKey_other _ _ (Ne.symm hk)]
        exact ⟨v, h, hv⟩
    | some existing =>
        rw [dedupInsert_some_eq hl]
        by_cases hc : existing.type = "UNKNOWN" ∧ stmt.type ≠ "UNKNOWN"
        · rw [if_pos hc, lookup_setKey_other _ _ (Ne.symm hk)]
          exact ⟨v, h, hv⟩
        · rw [if_neg hc]
          exact ⟨v, h, hv⟩

theorem lookup_dedupInsert_self_nonUnknown {m : List (String × statementModel)}
    (stmt : statementModel) (hs : stmt.type ≠ "UNKNOWN") :
    ∃ w, lookupKey (dedupInsert m stmt) (statementKey stmt) = some w ∧
      w.type ≠ "UNKNOWN" := by
  cases hl : lookupKey m (statementKey stmt) with
  | none =>
      rw [dedupInsert_none_eq hl]
      exact ⟨stmt, lookup_setKey_self m _ stmt, hs⟩
  | some existing =>
      rw [dedupInsert_some_eq hl]
      by_cases hc : existing.type = "UNKNOWN" ∧ stmt.type ≠ "UNKNOWN"
      · rw [if_pos hc]
        exact ⟨stmt, lookup_setKey_self m _ stmt, hs⟩
      · rw [if_neg hc]
        exact ⟨existing, hl, fun hex => hc ⟨hex, hs⟩⟩

theorem foldl_lookup_nonUnknown (l : List statementModel) :
    ∀ (m : List (String × statementModel)) (k : String),
      ((∃ v, lookupKey m k = some v ∧ v.type ≠ "UNKNOWN") ∨
        (∃ s, s ∈ l ∧ statementKey s = k ∧ s.type ≠ "UNKNOWN")) →
      ∃ w, lookupKey (l.foldl dedupInsert m) k = some w ∧ w.type ≠ "UNKNOWN" := by
  induction l with
  | nil =>
      intro m k h
      rcases h with ⟨v, hv, hnv⟩ | ⟨s, hs, _⟩
      · exact ⟨v, hv, hnv⟩
      · cases hs
  | cons a l ih =>
      intro m k h
      rcases h with ⟨v, hv, hnv⟩ | ⟨s, hsl, hk, hnu⟩
      · obtain ⟨w, hw, hnw⟩ := lookup_dedupInsert_nonUnknown a hv hnv
        exact ih (dedupInsert m a) k (Or.inl ⟨w, hw, hnw⟩)
      · rcases List.mem_cons.mp hsl with h1 | h1
        · subst h1
          obtain ⟨w, hw, hnw⟩ := lookup_dedupInsert_self_nonUnknown (m := m) s hnu
          rw [hk] at hw
          exact ih (dedupInsert m s) k (Or.inl ⟨w, hw, hnw⟩)
        · exact ih (dedupInsert m a) k (Or.inr ⟨s, h1, hk, hnu⟩)

theorem lookup_of_mem_nodup : ∀ {m : List (String × statementModel)} {k : String}
    {v : statementModel}, (m.map Prod.fst).Nodup → (k, v) ∈ m →
    lookupKey m k = some v := by
  intro m
  induction m with
  | nil => intro k v _ h; cases h
  | cons p rest ih =>
      intro k v hn h
      obtain ⟨k1, v1⟩ := p
      simp only [List.map_cons, List.nodup_cons] at hn
      rcases List.mem_cons.mp h with he | hm2
      · injection he with hk hv
        subst hk
        subst hv
        simp [lookupKey]
      · by_cases hp : k1 = k
        · subst hp
          exact absurd (List.mem_map_of_mem Prod.fst hm2) hn.1
        · simp only [lookupKey, if_neg hp]
          exact ih hn.2 hm2

theorem fold_rebuild : ∀ (out : List statementModel)
    (m : List (String × statementModel)),
    out.Pairwise (fun a b => statementKey a ≠ statementKey b) →
    (∀ s ∈ out, statementKey s ∉ m.map Prod.fst) →
    out.foldl dedupInsert m = m ++ out.map (fun s => (statementKey s, s)) := by
  intro out
  induction out with
  | nil => intro m _ _; simp
  | cons s out ih =>
      intro m hp hd
      have hnotin : statementKey s ∉ m.map Prod.fst := hd s (List.mem_cons_self _ _)
      have hnone : lookupKey m (statementKey s) = none := lookupKey_eq_none.mpr hnotin
      have h1 : dedupInsert m s = m ++ [(statementKey s, s)] := by
        rw [dedupInsert_none_eq hnone, setKey_of_not_mem _ hnotin]
      have hrel : ∀ b ∈ out, statementKey s ≠ statementKey b :=
        fun b hb => List.rel_of_pairwise_cons hp hb
      have hd2 : ∀ t ∈ out, statementKey t ∉ (m ++ [(statementKey s, s)]).map Prod.fst := by
        intro t ht
        simp only [List.map_append, List.mem_append, List.map_cons, List.map_nil,
          List.mem_singleton, not_or]
        exact ⟨hd t (List.mem_cons_of_mem _ ht), fun hc => hrel t ht hc.symm⟩
      calc (s :: out).foldl dedupInsert m
          = out.foldl dedupInsert (dedupInsert m s) := rfl
        _ = out.foldl dedupInsert (m ++ [(statementKey s, s)]) := by rw [h1]
        _ = (m ++ [(statementKey s, s)]) ++ out.map (fun t => (statementKey t, t)) :=
            ih _ (List.Pairwise.of_cons hp) hd2
        _ = m ++ (s :: out).map (fun t => (statementKey t, t)) := by
            simp [List.append_assoc]

/-! ### Derived facts about deduplicateStatements -/

theorem dedup_sorted (l : List statementModel) :
    List.Sorted stmtLe (deduplicateStatements l) := by
  cases l with
  | nil => simp [deduplicateStatements]
  | cons a l1 =>
      unfold deduplicateStatements
      exact List.sorted_insertionSort stmtLe _

theorem dedup_pairwise_keys (l : List statementModel) :
    (deduplicateStatements l).Pairwise
      (fun a b => statementKey a ≠ statementKey b) := by
  cases l with
  | nil => simp [deduplicateStatements]
  | cons a l1 =>
      unfold deduplicateStatements
      have hwf := foldl_wf (a :: l1) [] (by simp)
      have hnd := foldl_keys_nodup (a :: l1) [] (by simp)
      have h1 : ((a :: l1).foldl dedupInsert []).Pairwise (fun p q => p.1 ≠ q.1) :=
        List.pairwise_map.mp hnd
      have h2 : ((a :: l1).foldl dedupInsert []).Pairwise
          (fun p q => statementKey p.2 ≠ statementKey q.2) := by
        refine List.Pairwise.imp_of_mem ?_ h1
        intro p q hp hq hne
        rw [hwf p hp, hwf q hq]
        exact hne
      have h3 : (((a :: l1).foldl dedupInsert []).map Prod.snd).Pairwise
          (fun x y => statementKey x ≠ statementKey y) := List.pairwise_map.mpr h2
      exact ((List.perm_insertionSort stmtLe _).pairwise_iff
        (by intro x y h; exact Ne.symm h)).mpr h3

theorem dedup_key_mem (l : List statementModel) (s : statementModel) (hs : s ∈ l) :
    ∃ t, t ∈ deduplicateStatements l ∧ statementKey t = statementKey s := by
  cases l with
  | nil => cases hs
  | cons a l1 =>
      unfold deduplicateStatements
      have hk : statementKey s ∈ ((a :: l1).foldl dedupInsert []).map Prod.fst :=
        foldl_mem_keys (a :: l1) [] s hs
      obtain ⟨p, hp, hpk⟩ := List.mem_map.mp hk
      refine ⟨p.2, ?_, ?_⟩
      · rw [List.mem_insertionSort]
        exact List.mem_map_of_mem Prod.snd hp
      · rw [foldl_wf (a :: l1) [] (by simp) p hp]
        exact hpk

theorem dedup_nonUnknown (l : List statementModel) (k : String)
    (h : ∃ s, s ∈ l ∧ statementKey s = k ∧ s.type ≠ "UNKNOWN") :
    ∀ t ∈ deduplicateStatements l, statementKey t = k → t.type ≠ "UNKNOWN" := by
  cases l with
  | nil =>
      rcases h with ⟨s, hs, _⟩
      cases hs
  | cons a l1 =>
      intro t ht htk
      unfold deduplicateStatements at ht
      rw [List.mem_insertionSort] at ht
      obtain ⟨p, hp, hpt⟩ := List.mem_map.mp ht
      obtain ⟨w, hw, hnw⟩ := foldl_lookup_nonUnknown (a :: l1) [] k (Or.inr h)
      have hwf := foldl_wf (a :: l1) [] (by simp)
      have hnd := foldl_keys_nodup (a :: l1) [] (by simp)
      have hkp : p.1 = k := by
        rw [← hwf p hp, hpt]
        exact htk
      have hlk : lookupKey ((a :: l1).foldl dedupInsert []) k = some p.2 := by
        rw [← hkp]
        exact lookup_of_mem_nodup hnd (by rwa [Prod.mk.eta])
      rw [hlk] at hw
      injection hw with hw
      rw [← hpt, hw]
      exact hnw

/-! ### Claim C4 -/

/-- C4: deduplicator merge policy.  In the output, the surviving records
carry pairwise distinct position keys; every input record's key survives;
whenever some input record with a given key has a type other than UNKNOWN,
the survivor at that key is non-UNKNOWN; two records with identical
position tagged UNKNOWN and SELECT (in either order) yield exactly the
SELECT one; the empty input yields the empty output. -/
theorem C4_dedup_merge :
    (∀ l : List statementModel,
        (deduplicateStatements l).Pairwise
          (fun a b => statementKey a ≠ statementKey b)) ∧
    (∀ (l : List statementModel) (s : statementModel), s ∈ l →
        ∃ t, t ∈ deduplicateStatements l ∧ statementKey t = statementKey s) ∧
    (∀ (l : List statementModel) (k : String),
        (∃ s, s ∈ l ∧ statementKey s = k ∧ s.type ≠ "UNKNOWN") →
        ∀ t ∈ deduplicateStatements l, statementKey t = k → t.type ≠ "UNKNOWN") ∧
    deduplicateStatements [c4Unknown, c4Select] = [c4Select] ∧
    deduplicateStatements [c4Select, c4Unknown] = [c4Select] ∧
    deduplicateStatements [] = [] :=
  ⟨dedup_pairwise_keys, dedup_key_mem, dedup_nonUnknown, by decide, by decide, rfl⟩

/-- Witness for C4: the survival and non-UNKNOWN-preference hypotheses
discharged on the concrete UNKNOWN/SELECT pair. -/
theorem C4_dedup_merge_witness :
    (∃ t, t ∈ deduplicateStatements [c4Unknown, c4Select] ∧
      statementKey t = statementKey c4Unknown) ∧
    (∀ t ∈ deduplicateStatements [c4Unknown, c4Select],
      statementKey t = statementKey c4Select → t.type ≠ "UNKNOWN") :=
  ⟨C4_dedup_merge.2.1 [c4Unknown, c4Select] c4Unknown (by decide),
   C4_dedup_merge.2.2.1 [c4Unknown, c4Select] (statementKey c4Select)
     ⟨c4Select, by decide, rfl, by decide⟩⟩

/-! ### Claim C5 -/

/-- C5: the deduplicator output — the statement list a parse finally
returns — is pairwise non-decreasing in (StartLine, StartColumn). -/
theorem C5_output_sorted (l : List statementModel) :
    (deduplicateStatements l).Pairwise (fun a b =>
      a.StartLine < b.StartLine ∨
        (a.StartLine = b.StartLine ∧ a.StartColumn ≤ b.StartColumn)) :=
  dedup_sorted l

/-! ### Claim C6 -/

/-- C6: deduplicator idempotence — running the deduplicator on its own
output returns the same list unchanged, records and order alike. -/
theorem C6_idempotent (l : List statementModel) :
    deduplicateStatements (deduplicateStatements l) = deduplicateStatements l := by
  have hsort := dedup_sorted l
  have hpk := dedup_pairwise_keys l
  cases hout : deduplicateStatements l with
  | nil => rfl
  | cons b out1 =>
      rw [hout] at hsort hpk
      have hreb := fold_rebuild (b :: out1) [] hpk (by simp)
      unfold deduplicateStatements
      rw [hreb]
      simp only [List.nil_append, List.map_map]
      have hcomp : (Prod.snd ∘ fun s : statementModel => (statementKey s, s)) = id := rfl
      rw [hcomp, List.map_id]
      exact List.Sorted.insertionSort_eq hsort
/-! ### Lemmas about the error listener and the context builder -/

theorem SyntaxError_maxErrors (l : CustomErrorListener) (r : ReportedError) :
    (CustomErrorListener.SyntaxError l r).MaxErrors = l.MaxErrors := by
  unfold CustomErrorListener.SyntaxError
  split <;> rfl

theorem SyntaxError_length_le (l : CustomErrorListener) (r : ReportedError)
    (h : (l.Errors.length : Int) ≤ l.MaxErrors) :
    ((CustomErrorListener.SyntaxError l r).Errors.length : Int) ≤ l.MaxErrors := by
  unfold CustomErrorListener.SyntaxError
  dsimp only
  split
  · exact h
  · rename_i hlt
    simp only [List.length_append, List.length_cons, List.length_nil]
    push_cast
    omega

theorem foldl_SyntaxError_bound (rs : List ReportedError) :
    ∀ l : CustomErrorListener, (l.Errors.length : Int) ≤ l.MaxErrors →
      ((rs.foldl CustomErrorListener.SyntaxError l).Errors.length : Int)
        ≤ l.MaxErrors ∧
      (rs.foldl CustomErrorListener.SyntaxError l).MaxErrors = l.MaxErrors := by
  induction rs with
  | nil => intro l h; exact ⟨h, rfl⟩
  | cons r rs ih =>
      intro l h
      have h1 := SyntaxError_length_le l r h
      have h2 := SyntaxError_maxErrors l r
      have h3 := ih (CustomErrorListener.SyntaxError l r) (by rw [h2]; exact h1)
      rw [h2] at h3
      exact h3

theorem contextRows_length_past (lines : List String) (padding : Nat)
    (errLine column : Int) :
    ∀ (n : Nat) (i : Int), errLine < i →
      (contextRows lines padding errLine column i n).length = n := by
  intro n
  induction n with
  | zero => intro i _; rfl
  | succ n ih =>
      intro i hi
      simp only [contextRows]
      rw [if_neg (by omega)]
      simp only [List.length_cons]
      rw [ih (i + 1) (by omega)]

theorem contextRows_length_in (lines : List String) (padding : Nat)
    (errLine column : Int) :
    ∀ (n : Nat) (i : Int), i ≤ errLine → errLine < i + n →
      (contextRows lines padding errLine column i n).length = n + 1 := by
  intro n
  induction n with
  | zero =>
      intro i h1 h2
      exact absurd h2 (by omega)
  | succ n ih =>
      intro i h1 h2
      by_cases he : i = errLine
      · subst he
        simp only [contextRows, if_true]
        simp only [List.length_cons]
        rw [contextRows_length_past lines padding i column n (i + 1) (by omega)]
      · simp only [contextRows]
        rw [if_neg he]
        simp only [List.length_cons]
        rw [ih (i + 1) (by omega) (by omega)]

theorem contextWindow_eq (numLines contextLinesCfg line : Int)
    (hR : 0 ≤ contextLinesCfg) (h1 : 1 ≤ line) (h2 : line ≤ numLines) :
    contextWindow numLines contextLinesCfg line
      = (max 1 (line - contextLinesCfg), min numLines (line + contextLinesCfg)) := by
  unfold contextWindow
  dsimp only
  by_cases h0 : contextLinesCfg = 0
  · subst h0
    rw [if_pos rfl, Prod.mk.injEq]
    constructor <;> omega
  · rw [if_neg h0]
    split_ifs <;> rw [Prod.mk.injEq] <;> constructor <;> omega

theorem extractErrorRows_length (l : CustomErrorListener) (line column : Int)
    (hR : 0 ≤ l.ContextLines) (h1 : 1 ≤ line)
    (h2 : line ≤ ((splitLines l.SourceText).length : Int)) :
    ((l.extractErrorRows line column).length : Int)
      = (min ((splitLines l.SourceText).length : Int) (line + l.ContextLines)
          - max 1 (line - l.ContextLines) + 1) + 1 := by
  have hw := contextWindow_eq ((splitLines l.SourceText).length : Int)
    l.ContextLines line hR h1 h2
  have key : l.extractErrorRows line column
      = contextRows (splitLines l.SourceText)
          (toString (min ((splitLines l.SourceText).length : Int)
            (line + l.ContextLines))).length line column
          (max 1 (line - l.ContextLines))
          (min ((splitLines l.SourceText).length : Int) (line + l.ContextLines)
            - max 1 (line - l.ContextLines) + 1).toNat := by
    unfold CustomErrorListener.extractErrorRows
    dsimp only
    rw [if_neg (by omega), hw]
  rw [key]
  rw [contextRows_length_in _ _ _ _ _ _ (by omega) (by omega)]
  omega
/-! ### Claim C7 -/

/-- C7 counterexample: a listener configured with maximum 0 captures only
ten of eleven reported errors — 0 is replaced by the default cap 10, not
treated as unlimited. -/
theorem C7_counterexample :
    ((List.replicate 11 c7Report).foldl CustomErrorListener.SyntaxError
        (NewCustomErrorListener 0 "" 0)).Errors.length = 10 ∧
    ((List.replicate 11 c7Report).foldl CustomErrorListener.SyntaxError
        (NewCustomErrorListener 0 "" 0)).Errors.length ≠ 11 :=
  ⟨by decide, by decide⟩

/-- C7 amended: for every report sequence the listener stores at most the
effective cap — the configured maximum when positive, the default 10 when
the configured maximum is non-positive — and an invocation at or above the
cap is a no-op. -/
theorem C7_cap (maxErrors : Int) (src : String) (ctx : Int)
    (reports : List ReportedError) :
    (((reports.foldl CustomErrorListener.SyntaxError
        (NewCustomErrorListener maxErrors src ctx)).Errors.length : Int)
      ≤ (if maxErrors ≤ 0 then 10 else maxErrors)) ∧
    (∀ (l : CustomErrorListener) (r : ReportedError),
        (l.Errors.length : Int) ≥ l.MaxErrors →
        CustomErrorListener.SyntaxError l r = l) := by
  constructor
  · have h0 : (((NewCustomErrorListener maxErrors src ctx).Errors.length : Int)
        ≤ (NewCustomErrorListener maxErrors src ctx).MaxErrors) := by
      unfold NewCustomErrorListener
      dsimp only
      simp only [List.length_nil, Nat.cast_zero]
      split <;> omega
    have hb := (foldl_SyntaxError_bound reports _ h0).1
    simpa [NewCustomErrorListener] using hb
  · intro l r h
    unfold CustomErrorListener.SyntaxError
    rw [if_pos h]

/-- Witness for C7: the cap bound at a positive configured maximum, and
the no-op hypothesis discharged at a listener already at its cap. -/
theorem C7_cap_witness :
    (((List.replicate 11 c7Report).foldl CustomErrorListener.SyntaxError
        (NewCustomErrorListener 3 "" 0)).Errors.length : Int)
      ≤ (if (3 : Int) ≤ 0 then 10 else 3) ∧
    CustomErrorListener.SyntaxError c7AtCap c7Report = c7AtCap :=
  ⟨(C7_cap 3 "" 0 (List.replicate 11 c7Report)).1,
   (C7_cap 3 "" 0 []).2 c7AtCap c7Report (by decide)⟩

/-! ### Claim C8 -/

/-- C8 counterexample: in the ten-line document with context radius 2 and
an error on line 1, the rendered context has 4 rows — 3 content lines plus
the marker — while the claim demands min(N, 2R+1) = 5 displayed source
lines.  The window is clamped at the document edge, not padded. -/
theorem C8_counterexample :
    (c8Listener.extractErrorRows 1 1).length = 4 ∧
    ¬ ((c8Listener.extractErrorRows 1 1).length - 1 = min 10 (2 * 2 + 1)) :=
  ⟨by decide, by decide⟩

/-- C8 amended: for an N-line document, an error line L with 1 <= L <= N
and radius R >= 0, the rendered context has exactly
min(N, L+R) - max(1, L-R) + 1 content rows plus one marker row; for R = 0
it is exactly one content row plus the marker row. -/
theorem C8_amended (l : CustomErrorListener) (line column : Int)
    (hR : 0 ≤ l.ContextLines) (h1 : 1 ≤ line)
    (h2 : line ≤ ((splitLines l.SourceText).length : Int)) :
    (((l.extractErrorRows line column).length : Int)
      = (min ((splitLines l.SourceText).length : Int) (line + l.ContextLines)
          - max 1 (line - l.ContextLines) + 1) + 1) ∧
    (l.ContextLines = 0 → (l.extractErrorRows line column).length = 2) := by
  have hmain := extractErrorRows_length l line column hR h1 h2
  refine ⟨hmain, fun h0 => ?_⟩
  rw [h0] at hmain
  omega

/-- Witness for C8 amended: the row-count formula discharged on the
ten-line document at an interior line with radius 2, and the degenerate
radius-0 case at line 1. -/
theorem C8_amended_witness :
    (((c8Listener.extractErrorRows 5 1).length : Int)
      = (min ((splitLines c8Listener.SourceText).length : Int)
          (5 + c8Listener.ContextLines)
          - max 1 (5 - c8Listener.ContextLines) + 1) + 1) ∧
    (c8ListenerZero.extractErrorRows 1 1).length = 2 :=
  ⟨(C8_amended c8Listener 5 1 (by decide) (by decide) (by decide)).1,
   (C8_amended c8ListenerZero 1 1 (by decide) (by decide) (by decide)).2 rfl⟩
/-! ### Claim C9 -/

theorem contains_view_of_contains_mv (s : String)
    (h : strContains s "MATERIALIZED VIEW" = true) :
    strContains s "VIEW" = true := by
  unfold strContains at h ⊢
  rw [List.any_eq_true] at h ⊢
  obtain ⟨t, ht, hpre⟩ := h
  rw [List.isPrefixOf_iff_prefix] at hpre
  obtain ⟨rest, hrest⟩ := hpre
  refine ⟨t.drop 13, ?_, ?_⟩
  · rw [List.mem_tails] at ht ⊢
    exact (List.drop_suffix 13 t).trans ht
  · rw [List.isPrefixOf_iff_prefix]
    refine ⟨rest, ?_⟩
    rw [← hrest]
    have h13 : ("MATERIALIZED ".data).length = 13 := by decide
    have hsplit : ("MATERIALIZED VIEW".data : List Char)
        = "MATERIALIZED ".data ++ "VIEW".data := by decide
    rw [hsplit, List.append_assoc, ← h13, List.drop_left]

/-- C9: the classifier does test PACKAGE BODY before PACKAGE and TYPE BODY
before TYPE, but it tests VIEW before MATERIALIZED VIEW, so a CREATE
MATERIALIZED VIEW statement is classified CREATE_VIEW; since every text
containing MATERIALIZED VIEW also contains VIEW, the earlier VIEW test
always fires first and the CREATE_MATERIALIZED_VIEW branch is dead code —
the code contradicts its own priority rule for this one two-word phrase. -/
theorem C9_materialized_view_bug :
    getDeterminedStatementType "CREATE OR REPLACE PACKAGE BODY p IS END;"
      = "CREATE_PACKAGE_BODY" ∧
    getDeterminedStatementType "CREATE TYPE BODY t IS END;" = "CREATE_TYPE_BODY" ∧
    getDeterminedStatementType "CREATE MATERIALIZED VIEW mv AS SELECT * FROM t"
      = "CREATE_VIEW" ∧
    getDeterminedStatementType "CREATE MATERIALIZED VIEW mv AS SELECT * FROM t"
      ≠ "CREATE_MATERIALIZED_VIEW" ∧
    (∀ s : String, strContains s "MATERIALIZED VIEW" = true →
      strContains s "VIEW" = true) :=
  ⟨by decide, by decide, by decide, by decide, contains_view_of_contains_mv⟩

/-- Witness for C9: the containment hypothesis discharged on the failing
input's normalized text. -/
theorem C9_materialized_view_bug_witness :
    strContains "CREATE MATERIALIZED VIEW MV AS SELECT * FROM T" "VIEW" = true :=
  C9_materialized_view_bug.2.2.2.2
    "CREATE MATERIALIZED VIEW MV AS SELECT * FROM T" (by decide)

/-! ### Claim C10 -/

/-- C10: whenever the parse outcome carries at least one syntax error and
the input is not whitespace-only, SplitString returns the error
constructor — never a statement list — and the returned error takes its
Line and Column from the first captured error, and in the default
non-verbose mode also its Message. -/
theorem C10_error_suppression (s : Splitter) (content : String)
    (parsedStatements : List statementModel) (e0 : SyntaxError)
    (rest : List SyntaxError) (hne : trimStr content ≠ "") :
    ∃ e, s.SplitString content parsedStatements (e0 :: rest) = Except.error e ∧
      e.Line = e0.Line ∧ e.Column = e0.Column ∧
      (s.verboseErrors = false → e.Message = e0.Message) ∧
      ∀ stmts : List SplitterStatement,
        s.SplitString content parsedStatements (e0 :: rest) ≠ Except.ok stmts := by
  unfold Splitter.SplitString
  rw [if_neg hne]
  dsimp only
  by_cases hv : s.verboseErrors = true
  · rw [if_pos hv]
    refine ⟨_, rfl, rfl, rfl, ?_, ?_⟩
    · intro hfalse
      rw [hv] at hfalse
      exact Bool.noConfusion hfalse
    · intro stmts hok
      exact Except.noConfusion hok
  · rw [if_neg hv]
    refine ⟨_, rfl, rfl, rfl, fun _ => rfl, ?_⟩
    intro stmts hok
    exact Except.noConfusion hok

/-- Witness for C10: the default splitter on a concrete non-empty input
with one captured error. -/
theorem C10_witness :
    ∃ e, NewSplitter.SplitString "SELECT * FROM" [] [c10Error] = Except.error e ∧
      e.Line = c10Error.Line ∧ e.Column = c10Error.Column ∧
      (NewSplitter.verboseErrors = false → e.Message = c10Error.Message) ∧
      ∀ stmts : List SplitterStatement,
        NewSplitter.SplitString "SELECT * FROM" [] [c10Error] ≠ Except.ok stmts :=
  C10_error_suppression NewSplitter "SELECT * FROM" [] c10Error [] (by decide)

end PlsqlSplit
